import Mathlib

/-!
Verification of the Study Eyes live telemetry pipeline.

The pipeline is implemented three times in the repository:
`RealWebSocketService` and `WebSocketService` (both in
`frontend/src/services/realWebSocketService.ts`), and `MockWebSocketService`
(the synthetic generator).  Each service keeps a `Map` from event names to
arrays of callbacks, emits events by iterating this map, transforms inbound
`tracking_data` messages, derives threshold alerts, and manages the
socket.io connection lifecycle with a bounded reconnection loop.

The embedding below renders each method as a pure function: the mutable
fields of a service become a `State` structure, `setTimeout`/`setInterval`
scheduling becomes an explicit `Option` delay or a `timerActive` flag, and
a JS callback becomes a `Nat` identifier together with a behaviour function
`Nat → Except String Unit` (`.error` models a thrown exception).  Numeric
telemetry values are modelled as exact rationals.
-/

namespace StudyEyes

/-- Payload of an `attention_alert` event as built by the services: an alert
type string, a message, a severity string, and the frame timestamp. -/
structure Alert where
  type : String
  message : String
  severity : String
  timestamp : ℚ
deriving DecidableEq, Repr

/-- Inbound wire message of the live transport, mirroring the `TrackingData`
interface of `realWebSocketService.ts` (the optional raw-landmark payload is
omitted; the services only forward it unchanged).  The wire timestamp is
modelled as a rational number of milliseconds. -/
structure TrackingData where
  session_id : String
  timestamp : ℚ
  attention_score : ℚ
  focus_level : String
  distraction_type : String
  fatigue_level : String
  eye_strain_level : ℚ
  posture_score : ℚ
  gaze_direction_x : ℚ
  gaze_direction_y : ℚ
  left_eye_ratio : ℚ
  right_eye_ratio : ℚ
  blink_detected : Bool
  head_pitch : ℚ
  head_yaw : ℚ
  head_roll : ℚ
  is_focused : Bool
deriving DecidableEq, Repr

/-- Gaze point of the transformed frame. -/
structure GazePoint where
  x : ℚ
  y : ℚ
deriving DecidableEq, Repr

/-- Frame published on the `eye_tracking_data` topic by the `tracking_data`
handler of `RealWebSocketService` (the nested `eyes` and `head_pose` objects
are flattened into fields). -/
structure TransformedData where
  timestamp : ℚ
  attention_score : ℚ
  focus_level : String
  distraction_type : String
  fatigue_level : String
  eye_strain_level : ℚ
  posture_score : ℚ
  gaze : GazePoint
  eyes_left_ratio : ℚ
  eyes_right_ratio : ℚ
  eyes_blink_detected : Bool
  head_pitch : ℚ
  head_yaw : ℚ
  head_roll : ℚ
  is_focused : Bool
deriving DecidableEq, Repr

/-- Commands the services send to the transport socket. -/
inductive WireCommand
  | start_tracking (sessionId token : String)
  | stop_tracking (sessionId token : String)
  | pause_tracking (sessionId token : String)
  | resume_tracking (sessionId token : String)
deriving DecidableEq, Repr

/-- Connection-topic events emitted by the two transport services. -/
inductive ConnEvent
  | connection_status (connected : Bool)
  | connection_error (msg : String)
  | max_reconnect_attempts_reached
deriving DecidableEq, Repr

/-- Session lifecycle events emitted by the synthetic generator.  The
`invalid_transition` constructor stands for the `InvalidTransition` signal
named by the specification; no service method ever produces it. -/
inductive SessionEvent
  | session_started (sessionId : String)
  | session_ended (sessionId : String)
  | session_paused (sessionId : String)
  | session_resumed (sessionId : String)
  | invalid_transition (sessionId : String)
deriving DecidableEq, Repr

/-! ### Listener registry

Each service keeps `Map<string, Function[]>`.  A callback is modelled by a
`Nat` identifier; the registry is an association list in key insertion
order, as a JS `Map` iterates keys in insertion order and each value array
keeps push order. -/

/-- Registry of event listeners: event name to callback identifiers in
subscription order. -/
abbrev ListenerMap := List (String × List Nat)

/-- Callback list registered for an event, or `[]` when the event has no
entry (mirrors `this.eventListeners.get(event)` followed by the `if
(listeners)` guard of the emit methods). -/
def ListenerMap.getD (m : ListenerMap) (event : String) : List Nat :=
  ((m.find? (fun p => p.1 == event)).map Prod.snd).getD []

/-- Registration (`on`): create an empty entry when the event is absent,
then push the callback (`this.eventListeners.get(event)!.push(callback)`). -/
def ListenerMap.onRegister (m : ListenerMap) (event : String) (cb : Nat) : ListenerMap :=
  if m.any (fun p => p.1 == event) then
    m.map (fun p => if p.1 == event then (p.1, p.2 ++ [cb]) else p)
  else m ++ [(event, [cb])]

/-- Removal of the first occurrence of a callback, mirroring
`indexOf` + `splice(index, 1)` (no change when the callback is absent,
as `indexOf` returns `-1`). -/
def removeFirst (l : List Nat) (cb : Nat) : List Nat :=
  match l with
  | [] => []
  | x :: xs => if x == cb then xs else x :: removeFirst xs cb

/-- Deregistration (`off` with a callback argument): splice the first
occurrence out of the callback array of the event. -/
def ListenerMap.offRemove (m : ListenerMap) (event : String) (cb : Nat) : ListenerMap :=
  m.map (fun p => if p.1 == event then (p.1, removeFirst p.2 cb) else p)

/-! ### Emit semantics

A callback behaviour maps an identifier to `.ok ()` (normal return) or
`.error e` (the callback throws `e`).  `RealWebSocketService.emit` and
`MockWebSocketService.emit` wrap each call in `try { callback(data) } catch
(error) { console.error(...) }`; `WebSocketService.emit` calls the callbacks
bare, so a throw aborts the `forEach` and propagates to the caller. -/

/-- Iteration with the per-callback `try`/`catch`: returns the callbacks
invoked in order and the caught errors logged to the console, in order. -/
def runCallbacksCaught (beh : Nat → Except String Unit) : List Nat → List Nat × List String
  | [] => ([], [])
  | c :: rest =>
    let r := runCallbacksCaught beh rest
    match beh c with
    | .ok _ => (c :: r.1, r.2)
    | .error e => (c :: r.1, e :: r.2)

/-- Iteration without a `try`/`catch`: returns the callbacks invoked before
the loop ended and, when one of them threw, the exception that propagated
to the publisher (later callbacks are never invoked). -/
def runCallbacksUncaught (beh : Nat → Except String Unit) : List Nat → List Nat × Option String
  | [] => ([], none)
  | c :: rest =>
    match beh c with
    | .ok _ =>
      let r := runCallbacksUncaught beh rest
      (c :: r.1, r.2)
    | .error e => ([c], some e)

namespace RealWebSocketService

/-- Mutable fields of `RealWebSocketService`: whether `this.socket` is
non-null, `isConnected`, the reconnect counter, and the listener map. -/
structure State where
  socketActive : Bool
  isConnected : Bool
  reconnectAttempts : Nat
  eventListeners : ListenerMap
deriving DecidableEq, Repr

/-- Default reconnection parameters of both transport services:
`maxReconnectAttempts = 5`, `reconnectDelay = 1000`. -/
def maxReconnectAttempts : Nat := 5

/-- Base reconnect delay of both transport services, in milliseconds. -/
def reconnectDelay : Nat := 1000

/-- The `connect` handler: sets `isConnected`, resets the attempt counter
to `0`, and emits `connection_status { connected: true }`. -/
def onConnect (s : State) : State × List ConnEvent :=
  ({ s with isConnected := true, reconnectAttempts := 0 },
   [ConnEvent.connection_status true])

/-- The `disconnect` handler: clears `isConnected`, emits
`connection_status { connected: false }`, and, when the attempt counter is
still below `maxReconnectAttempts`, schedules a `setTimeout` whose delay is
`reconnectDelay * reconnectAttempts` evaluated with the counter value at
scheduling time; the counter is incremented inside the timer callback just
before `connect()` runs.  The returned option is the scheduled delay
(`none` when no retry is scheduled). -/
def onDisconnect (s : State) : State × Option Nat × List ConnEvent :=
  if s.reconnectAttempts < maxReconnectAttempts then
    ({ s with isConnected := false }, some (reconnectDelay * s.reconnectAttempts),
     [ConnEvent.connection_status false])
  else
    ({ s with isConnected := false }, none, [ConnEvent.connection_status false])

/-- Run of the reconnection loop against a transport whose every connect
attempt fails: each failure raises the disconnect handler again with the
counter incremented by the previous timer callback.  Returns the scheduled
delays in order and the concatenated emitted events.  `fuel` bounds the
number of failures processed. -/
def failingRun : Nat → Nat → List Nat × List ConnEvent
  | 0, _ => ([], [])
  | fuel + 1, attempts =>
    if attempts < maxReconnectAttempts then
      let r := failingRun fuel (attempts + 1)
      ((reconnectDelay * attempts) :: r.1, ConnEvent.connection_status false :: r.2)
    else ([], [ConnEvent.connection_status false])

/-- Body of the `tracking_data` handler that reshapes the wire message into
the frame published on `eye_tracking_data`: a pure restructuring, with no
clamping or unit conversion of any numeric field. -/
def transformTrackingData (d : TrackingData) : TransformedData :=
  { timestamp := d.timestamp
    attention_score := d.attention_score
    focus_level := d.focus_level
    distraction_type := d.distraction_type
    fatigue_level := d.fatigue_level
    eye_strain_level := d.eye_strain_level
    posture_score := d.posture_score
    gaze := { x := d.gaze_direction_x, y := d.gaze_direction_y }
    eyes_left_ratio := d.left_eye_ratio
    eyes_right_ratio := d.right_eye_ratio
    eyes_blink_detected := d.blink_detected
    head_pitch := d.head_pitch
    head_yaw := d.head_yaw
    head_roll := d.head_roll
    is_focused := d.is_focused }

/-- Alert derivation of the `tracking_data` handler, in source order:
`attention_score < 60` emits a `low_attention` warning,
a `distraction_type` other than `none` emits a `distraction` info alert, and
`eye_strain_level > 20` emits an `eye_strain` warning.  Every check runs on
every frame; the handler keeps no state between frames. -/
def deriveAlerts (d : TrackingData) : List Alert :=
  (if d.attention_score < 60 then
    [{ type := "low_attention",
       message := "Your attention level is low. Take a break or refocus.",
       severity := "warning", timestamp := d.timestamp }]
  else []) ++
  (if d.distraction_type ≠ "none" then
    [{ type := "distraction",
       message := "Distraction detected: " ++ d.distraction_type,
       severity := "info", timestamp := d.timestamp }]
  else []) ++
  (if d.eye_strain_level > 20 then
    [{ type := "eye_strain",
       message := "High eye strain detected. Consider taking a break.",
       severity := "warning", timestamp := d.timestamp }]
  else [])

/-- Alerts emitted on the `attention_alert` topic over a sequence of
inbound frames: the handler is stateless, so the stream is the
concatenation of the per-frame derivations. -/
def alertStream (frames : List TrackingData) : List Alert :=
  frames.flatMap deriveAlerts

/-- Method `startTracking`: when the socket is null or not connected it
logs an error, emits a `connection_error` event carrying the message
`Not connected to server`, and returns without sending anything or
scheduling any retry; otherwise it sends the `start_tracking` command.
Returns the (unchanged) state, the commands sent to the transport, and
the events emitted locally. -/
def startTracking (s : State) (sessionId token : String) :
    State × List WireCommand × List ConnEvent :=
  if !s.socketActive || !s.isConnected then
    (s, [], [ConnEvent.connection_error "Not connected to server"])
  else
    (s, [WireCommand.start_tracking sessionId token], [])

/-- Method `resumeTracking`: when the socket is null or not connected it
only logs an error and returns (no event, no command, no retry); otherwise
it sends `resume_tracking` with the stored token. -/
def resumeTracking (s : State) (sessionId token : String) :
    State × List WireCommand :=
  if !s.socketActive || !s.isConnected then (s, [])
  else (s, [WireCommand.resume_tracking sessionId token])

/-- Method named `on` in the source (`on` is reserved in Lean): register a
callback for an event. -/
def onListener (s : State) (event : String) (cb : Nat) : State :=
  { s with eventListeners := s.eventListeners.onRegister event cb }

/-- Method `off`: remove the first matching registration of the callback. -/
def off (s : State) (event : String) (cb : Nat) : State :=
  { s with eventListeners := s.eventListeners.offRemove event cb }

/-- Method `emit`: invoke every callback registered for the event in
subscription order, catching and logging each thrown exception.  Returns
the invoked callbacks in order and the logged errors. -/
def emit (s : State) (event : String) (beh : Nat → Except String Unit) :
    List Nat × List String :=
  runCallbacksCaught beh (s.eventListeners.getD event)

/-- Method `disconnect`: tears the socket down, clears `isConnected`, and
clears the whole listener map (`this.eventListeners.clear()`). -/
def disconnect (s : State) : State :=
  { s with socketActive := false, isConnected := false, eventListeners := [] }

end RealWebSocketService

namespace WebSocketService

/-- Mutable fields of `WebSocketService`: whether `this.socket` is
non-null, the reconnect counter, and the listener map (this service keeps
no `isConnected` flag; it reads `socket.connected`, modelled as a Bool
argument where needed). -/
structure State where
  socketActive : Bool
  reconnectAttempts : Nat
  listeners : ListenerMap
deriving DecidableEq, Repr

/-- Method `handleReconnection`, called from the `disconnect` and
`connect_error` handlers: when the counter has reached
`maxReconnectAttempts` it emits `max_reconnect_attempts_reached` and stops;
otherwise it increments the counter and schedules `socket.connect()` after
`reconnectDelay * 2 ^ (reconnectAttempts - 1)` milliseconds.  Returns the
new counter, the scheduled delay (if any), and the emitted events. -/
def handleReconnection (maxAttempts baseDelay attempts : Nat) :
    Nat × Option Nat × List ConnEvent :=
  if attempts ≥ maxAttempts then
    (attempts, none, [ConnEvent.max_reconnect_attempts_reached])
  else
    (attempts + 1, some (baseDelay * 2 ^ (attempts + 1 - 1)), [])

/-- The `connect` handler: resets the counter to `0` and emits
`connection_status { connected: true }`. -/
def onConnect (_attempts : Nat) : Nat × List ConnEvent :=
  (0, [ConnEvent.connection_status true])

/-- Run of `handleReconnection` against a transport whose every attempt
fails: each scheduled attempt fails and raises `handleReconnection` again
with the updated counter.  Returns the scheduled delays in order and the
events emitted by `handleReconnection`.  `fuel` bounds the number of
failures processed. -/
def failingRun (maxAttempts baseDelay : Nat) : Nat → Nat → List Nat × List ConnEvent
  | 0, _ => ([], [])
  | fuel + 1, attempts =>
    match handleReconnection maxAttempts baseDelay attempts with
    | (a, some d, _) =>
      let r := failingRun maxAttempts baseDelay fuel a
      (d :: r.1, r.2)
    | (_, none, evs) => ([], evs)

/-- Method `startTracking`: sends the command only when
`socket?.connected` holds, otherwise it logs a console warning and returns
without sending, emitting, or retrying anything. -/
def startTracking (connected : Bool) (sessionId token : String) :
    List WireCommand × List String :=
  if connected then ([WireCommand.start_tracking sessionId token], [])
  else ([], ["WebSocket not connected. Cannot start tracking."])

/-- Method `emit`: invokes the callbacks bare (`callbacks.forEach(callback
=> callback(data))`), with no `try`/`catch`. -/
def emit (s : State) (event : String) (beh : Nat → Except String Unit) :
    List Nat × Option String :=
  runCallbacksUncaught beh (s.listeners.getD event)

/-- Method `disconnect`: disconnects and nulls the socket; the listener
map is left untouched. -/
def disconnect (s : State) : State :=
  { s with socketActive := false }

end WebSocketService

namespace MockWebSocketService

/-- Mutable fields of `MockWebSocketService`: the simulated connection
flag, the `sessionActive` flag, and whether `focusSimulationInterval` holds
a live interval (`timerActive`). -/
structure State where
  isConnectionActive : Bool
  sessionActive : Bool
  timerActive : Bool
deriving DecidableEq, Repr

/-- Nondeterministic inputs of one `generateMockFocusData` tick: the values
of the three `Math.sin` calls (each in `[-1, 1]` by the contract of
`Math.sin`) and of the `Math.random()` draws (each in `[0, 1)`). -/
structure MockEnv where
  sinAttention : ℚ
  randAttention : ℚ
  sinStrain : ℚ
  randStrain : ℚ
  sinPosture : ℚ
  randPosture : ℚ
  randBlink : ℚ
  randGazeX : ℚ
  randGazeY : ℚ
  randAlertAttention : ℚ
  randAlertStrain : ℚ
  randAlertPosture : ℚ
deriving DecidableEq, Repr

/-- Frame published on `eye_tracking_data` by `generateMockFocusData` (the
nested `gaze_position` and `focus_zones` objects are flattened). -/
structure MockFrame where
  timestamp : ℚ
  attention_score : ℚ
  eye_strain_level : ℚ
  posture_score : ℚ
  blink_rate : ℚ
  gaze_x : ℚ
  gaze_y : ℚ
  screen_center : Bool
  peripheral : Bool
  session_active : Bool
deriving DecidableEq, Repr

/-- Frame construction of `generateMockFocusData`: the attention score is
clamped into `[0, 1]` with `Math.max(0, Math.min(1, ...))`, eye strain into
`[0, 50]`, posture into `[60, 100]`; the gaze coordinates are
`0.5 + (Math.random() - 0.5) * 0.3` with no clamping. -/
def mockFrame (ts : ℚ) (env : MockEnv) : MockFrame :=
  let baseAttention := 75 + env.sinAttention * 20
  let noise := (env.randAttention - 0.5) * 10
  let attention_score := max 0 (min 1 ((baseAttention + noise) / 100))
  let eyeStrainBase := 15 + env.sinStrain * 10
  let eye_strain_level := max 0 (min 50 (eyeStrainBase + (env.randStrain - 0.5) * 5))
  let postureBase := 85 + env.sinPosture * 10
  let posture_score := max 60 (min 100 (postureBase + (env.randPosture - 0.5) * 5))
  { timestamp := ts
    attention_score := attention_score
    eye_strain_level := eye_strain_level
    posture_score := posture_score
    blink_rate := env.randBlink * 5 + 15
    gaze_x := 0.5 + (env.randGazeX - 0.5) * 0.3
    gaze_y := 0.5 + (env.randGazeY - 0.5) * 0.3
    screen_center := decide (attention_score > 0.7)
    peripheral := decide (attention_score < 0.5)
    session_active := true }

/-- Alert emission of `generateMockFocusData`: each kind fires only behind
a random gate (`Math.random() < p`), with `low_attention` requiring
`attention_score < 0.4` (warning), `eye_strain` requiring
`eye_strain_level > 30` (severity `error`), and `posture` requiring
`posture_score < 70` (warning); there is no cooldown bookkeeping. -/
def mockAlerts (ts : ℚ) (env : MockEnv) : List Alert :=
  let f := mockFrame ts env
  (if f.attention_score < 0.4 ∧ env.randAlertAttention < 0.15 then
    [{ type := "low_attention",
       message := "Low attention detected - consider taking a short break",
       severity := "warning", timestamp := ts }]
  else []) ++
  (if f.eye_strain_level > 30 ∧ env.randAlertStrain < 0.1 then
    [{ type := "eye_strain",
       message := "High eye strain detected - look away from screen for 20 seconds",
       severity := "error", timestamp := ts }]
  else []) ++
  (if f.posture_score < 70 ∧ env.randAlertPosture < 0.08 then
    [{ type := "posture",
       message := "Poor posture detected - adjust your sitting position",
       severity := "warning", timestamp := ts }]
  else [])

/-- Method `startTracking`: sets `sessionActive`, emits `session_started`,
and starts the tick interval. -/
def startTracking (s : State) (sessionId : String) : State × List SessionEvent :=
  ({ s with sessionActive := true, timerActive := true },
   [SessionEvent.session_started sessionId])

/-- Method `stopTracking`: clears `sessionActive`, clears the interval,
and emits `session_ended`. -/
def stopTracking (s : State) (sessionId : String) : State × List SessionEvent :=
  ({ s with sessionActive := false, timerActive := false },
   [SessionEvent.session_ended sessionId])

/-- Method `pauseTracking`: clears the interval and emits
`session_paused` (the `sessionActive` flag is untouched). -/
def pauseTracking (s : State) (sessionId : String) : State × List SessionEvent :=
  ({ s with timerActive := false }, [SessionEvent.session_paused sessionId])

/-- Method `resumeTracking`: restarts the interval only when
`sessionActive` still holds, then emits `session_resumed`
unconditionally. -/
def resumeTracking (s : State) (sessionId : String) : State × List SessionEvent :=
  ({ s with timerActive := if s.sessionActive then true else s.timerActive },
   [SessionEvent.session_resumed sessionId])

/-- One interval tick: the interval callback runs only while the interval
is live, and `generateMockFocusData` returns immediately when
`sessionActive` is false, so a frame is produced only when both flags
hold. -/
def tick (s : State) (ts : ℚ) (env : MockEnv) : Option MockFrame :=
  if s.timerActive && s.sessionActive then some (mockFrame ts env) else none

/-- Method `emit`: identical to `RealWebSocketService.emit`, with the
per-callback `try`/`catch`. -/
def emit (handlers : ListenerMap) (event : String) (beh : Nat → Except String Unit) :
    List Nat × List String :=
  runCallbacksCaught beh (handlers.getD event)

end MockWebSocketService

/-! ### Concrete inputs used by counterexamples and witnesses -/

/-- Behaviour of callbacks that all return normally. -/
def okBeh : Nat → Except String Unit := fun _ => Except.ok ()

/-- Behaviour where callback `0` throws and every other callback returns
normally. -/
def throwingBeh : Nat → Except String Unit :=
  fun c => if c = 0 then Except.error "boom" else Except.ok ()

/-- Wire frame whose only threshold violation is `eye_strain_level = 25`. -/
def strainData (ts : ℚ) : TrackingData :=
  { session_id := "s1", timestamp := ts, attention_score := 80,
    focus_level := "high", distraction_type := "none", fatigue_level := "low",
    eye_strain_level := 25, posture_score := 90, gaze_direction_x := 0,
    gaze_direction_y := 0, left_eye_ratio := 0.3, right_eye_ratio := 0.3,
    blink_detected := false, head_pitch := 0, head_yaw := 0, head_roll := 0,
    is_focused := true }

/-- Wire frame whose only threshold violation is `posture_score = 50`. -/
def postureOnlyData : TrackingData :=
  { session_id := "s1", timestamp := 0, attention_score := 80,
    focus_level := "high", distraction_type := "none", fatigue_level := "low",
    eye_strain_level := 10, posture_score := 50, gaze_direction_x := 0,
    gaze_direction_y := 0, left_eye_ratio := 0.3, right_eye_ratio := 0.3,
    blink_detected := false, head_pitch := 0, head_yaw := 0, head_roll := 0,
    is_focused := true }

/-- Wire frame with every bounded field out of its canonical range. -/
def outOfRangeData : TrackingData :=
  { session_id := "s1", timestamp := 0, attention_score := 2,
    focus_level := "high", distraction_type := "none", fatigue_level := "low",
    eye_strain_level := 150, posture_score := 120, gaze_direction_x := 3,
    gaze_direction_y := -3, left_eye_ratio := 0.5, right_eye_ratio := 0.5,
    blink_detected := false, head_pitch := 0, head_yaw := 0, head_roll := 0,
    is_focused := true }

/-- Mock tick inputs with every sine and random draw equal to `1 / 2`. -/
def halfEnv : MockWebSocketService.MockEnv :=
  { sinAttention := 1/2, randAttention := 1/2, sinStrain := 1/2,
    randStrain := 1/2, sinPosture := 1/2, randPosture := 1/2,
    randBlink := 1/2, randGazeX := 1/2, randGazeY := 1/2,
    randAlertAttention := 1/2, randAlertStrain := 1/2, randAlertPosture := 1/2 }

/-- Mock service state after `stopTracking`: session inactive, timer off. -/
def stoppedMock : MockWebSocketService.State :=
  { isConnectionActive := true, sessionActive := false, timerActive := false }

/-- Mock service state while a session is being tracked. -/
def activeMock : MockWebSocketService.State :=
  { isConnectionActive := true, sessionActive := true, timerActive := true }

/-- `RealWebSocketService` state with a live socket that is not connected. -/
def notConnectedState : RealWebSocketService.State :=
  { socketActive := true, isConnected := false, reconnectAttempts := 0,
    eventListeners := [] }

/-- `RealWebSocketService` state with one subscription on the telemetry
topic. -/
def subscribedState : RealWebSocketService.State :=
  { socketActive := true, isConnected := true, reconnectAttempts := 0,
    eventListeners := [("eye_tracking_data", [7])] }

/-- `RealWebSocketService` state with the same callback subscribed twice on
one topic. -/
def dupState : RealWebSocketService.State :=
  { socketActive := true, isConnected := true, reconnectAttempts := 0,
    eventListeners := [("telemetry", [7, 7])] }

/-- `RealWebSocketService` state with one callback subscribed once. -/
def singleState : RealWebSocketService.State :=
  { socketActive := true, isConnected := true, reconnectAttempts := 0,
    eventListeners := [("telemetry", [7])] }

/-- `WebSocketService` state with two subscribers on one topic. -/
def wsTwoSubscribers : WebSocketService.State :=
  { socketActive := true, reconnectAttempts := 0,
    listeners := [("telemetry", [0, 1])] }

/-! ### Helper lemmas -/

/-- Iteration with the per-callback catch invokes every callback, in
order. -/
lemma runCallbacksCaught_fst (beh : Nat → Except String Unit) (l : List Nat) :
    (runCallbacksCaught beh l).1 = l := by
  induction l with
  | nil => rfl
  | cons c rest ih =>
    cases hb : beh c <;> simp [runCallbacksCaught, hb, ih]

/-- Iteration with the per-callback catch logs exactly the thrown errors,
in callback order. -/
lemma runCallbacksCaught_snd (beh : Nat → Except String Unit) (l : List Nat) :
    (runCallbacksCaught beh l).2 = l.filterMap (fun c =>
      match beh c with
      | .ok _ => none
      | .error e => some e) := by
  induction l with
  | nil => rfl
  | cons c rest ih =>
    cases hb : beh c <;> simp [runCallbacksCaught, hb, ih]

/-- Iteration without a catch behaves normally when no callback throws. -/
lemma runCallbacksUncaught_ok (beh : Nat → Except String Unit) (l : List Nat)
    (h : ∀ c ∈ l, beh c = Except.ok ()) :
    runCallbacksUncaught beh l = (l, none) := by
  induction l with
  | nil => rfl
  | cons c rest ih =>
    have hc : beh c = Except.ok () := h c (List.mem_cons_self c rest)
    simp [runCallbacksUncaught, hc, ih (fun x hx => h x (List.mem_cons_of_mem c hx))]

/-- Lookup on a nonempty registry reads the head entry when its key
matches. -/
lemma getD_cons (p : String × List Nat) (rest : ListenerMap) (e : String) :
    ListenerMap.getD (p :: rest) e
      = if p.1 == e then p.2 else ListenerMap.getD rest e := by
  by_cases hk : p.1 == e <;> simp [ListenerMap.getD, List.find?_cons, hk]

/-- Registration appends the new callback after the existing subscribers
of the event. -/
lemma getD_onRegister (m : ListenerMap) (e : String) (cb : Nat) :
    (ListenerMap.onRegister m e cb).getD e = m.getD e ++ [cb] := by
  induction m with
  | nil => simp [ListenerMap.onRegister, ListenerMap.getD]
  | cons p rest ih =>
    rw [ListenerMap.onRegister] at ih ⊢
    by_cases he : p.1 = e
    · rw [if_pos (by simp [List.any_cons, he])]
      simp [List.map_cons, getD_cons, he]
    · by_cases ha : rest.any (fun q => q.1 == e)
      · rw [if_pos (show ((p :: rest).any fun q => q.1 == e) = true by
          simp [List.any_cons, ha])]
        rw [if_pos ha] at ih
        simpa [List.map_cons, getD_cons, he] using ih
      · rw [if_neg (show ¬ ((p :: rest).any fun q => q.1 == e) = true by
          simp [List.any_cons, he, ha])]
        rw [if_neg ha] at ih
        simpa [List.cons_append, getD_cons, he] using ih

/-- Deregistration splices the first occurrence out of the callbacks of
the event. -/
lemma getD_offRemove (m : ListenerMap) (e : String) (cb : Nat) :
    (ListenerMap.offRemove m e cb).getD e = removeFirst (m.getD e) cb := by
  induction m with
  | nil => simp [ListenerMap.offRemove, ListenerMap.getD, removeFirst]
  | cons p rest ih =>
    by_cases he : p.1 = e
    · simp [ListenerMap.offRemove, List.map_cons, getD_cons, he]
    · simpa [ListenerMap.offRemove, List.map_cons, getD_cons, he] using ih

/-- The `indexOf` + `splice` removal agrees with `List.erase`. -/
lemma removeFirst_eq_erase (l : List Nat) (cb : Nat) : removeFirst l cb = l.erase cb := by
  induction l with
  | nil => rfl
  | cons x xs ih =>
    by_cases hx : x == cb <;> simp [removeFirst, List.erase_cons, hx, ih]

/-- Count of `eye_strain` alerts derived from one frame: exactly one when
the threshold holds, zero otherwise. -/
lemma strain_filter_deriveAlerts (d : TrackingData) :
    ((RealWebSocketService.deriveAlerts d).filter
      (fun a => a.type == "eye_strain")).length
      = if 20 < d.eye_strain_level then 1 else 0 := by
  by_cases h1 : d.attention_score < 60 <;>
    by_cases h2 : d.distraction_type = "none" <;>
    by_cases h3 : 20 < d.eye_strain_level <;>
    simp [RealWebSocketService.deriveAlerts, h1, h2, h3]

/-- Facts about the randomly gated alerts of the synthetic generator: its
`eye_strain` alerts carry severity `error`, it never emits a `distraction`
alert, and its `posture` alerts require `posture_score < 70`. -/
lemma mockAlerts_facts (ts : ℚ) (env : MockWebSocketService.MockEnv) :
    (∀ a ∈ MockWebSocketService.mockAlerts ts env,
      a.type = "eye_strain" → a.severity = "error") ∧
    (∀ a ∈ MockWebSocketService.mockAlerts ts env, a.type ≠ "distraction") ∧
    (∀ a ∈ MockWebSocketService.mockAlerts ts env,
      a.type = "posture" → (MockWebSocketService.mockFrame ts env).posture_score < 70) := by
  by_cases m1 : (MockWebSocketService.mockFrame ts env).attention_score < 0.4
      ∧ env.randAlertAttention < 0.15 <;>
    by_cases m2 : (MockWebSocketService.mockFrame ts env).eye_strain_level > 30
      ∧ env.randAlertStrain < 0.1 <;>
    by_cases m3 : (MockWebSocketService.mockFrame ts env).posture_score < 70
      ∧ env.randAlertPosture < 0.08 <;>
    simp [MockWebSocketService.mockAlerts, m1, m2, m3]

/-- The unit interval bounds of the value `1 / 2`, used to instantiate
range hypotheses. -/
lemma half_unit : (0 : ℚ) ≤ 1/2 ∧ (1/2 : ℚ) ≤ 1 := by norm_num

/-- The strain-only test frame exceeds the eye strain threshold. -/
lemma strainData_gt : (strainData 0).eye_strain_level > 20 := by norm_num [strainData]

/-! ### Claim theorems -/

/-- Claim C1 (amended): against an always-failing transport with
`maxAttempts = 5`, the `WebSocketService` reconnection loop schedules
exactly 5 attempts whose delay before the k-th attempt is
`baseDelay * 2 ^ (k - 1)`, each inter-attempt delay at least the previous
one; after the 5th failure it publishes the terminal
`max_reconnect_attempts_reached` status and schedules nothing further
while the counter stays exhausted; a successful connect resets the
counter to 0 in both transport services.  The `RealWebSocketService`
variant instead schedules its k-th retry after `baseDelay * (k - 1)`
(first retry immediate) and never publishes a terminal status. -/
theorem C1_reconnect_backoff (b : Nat) :
    (WebSocketService.failingRun 5 b 6 0).1
      = [b * 2 ^ 0, b * 2 ^ 1, b * 2 ^ 2, b * 2 ^ 3, b * 2 ^ 4] ∧
    (WebSocketService.failingRun 5 b 6 0).2
      = [ConnEvent.max_reconnect_attempts_reached] ∧
    List.Chain' (· ≤ ·) (WebSocketService.failingRun 5 b 6 0).1 ∧
    (∀ fuel, (WebSocketService.failingRun 5 b fuel 5).1 = []) ∧
    (∀ a, (WebSocketService.onConnect a).1 = 0) ∧
    (∀ s : RealWebSocketService.State,
      ((RealWebSocketService.onConnect s).1).reconnectAttempts = 0) ∧
    (RealWebSocketService.failingRun 6 0).1 = [0, 1000, 2000, 3000, 4000] ∧
    ConnEvent.max_reconnect_attempts_reached ∉ (RealWebSocketService.failingRun 6 0).2 := by
  refine ⟨rfl, rfl, ?_, ?_, fun a => rfl, fun s => rfl, rfl, by decide⟩
  · show List.Chain' (· ≤ ·) [b * 2 ^ 0, b * 2 ^ 1, b * 2 ^ 2, b * 2 ^ 3, b * 2 ^ 4]
    norm_num [List.chain'_cons]
    omega
  · intro fuel
    cases fuel <;> rfl

/-- Claim C1 counterexample: in the `RealWebSocketService` reconnection
loop with the default `baseDelay = 1000`, the delay scheduled before the
first reconnect attempt is `0`, not `baseDelay * 2 ^ 0 = 1000`, and no
`MaxReconnectExceeded` status is ever published during the exhausted
run. -/
theorem C1_counterexample :
    (RealWebSocketService.failingRun 6 0).1.head? = some 0 ∧
    RealWebSocketService.reconnectDelay * 2 ^ 0 = 1000 ∧ (0 : Nat) ≠ 1000 ∧
    ConnEvent.max_reconnect_attempts_reached ∉ (RealWebSocketService.failingRun 6 0).2 := by
  decide

/-- Claim C2 (amended): the live `tracking_data` path keeps no cooldown
state; over any sequence of frames the number of `eye_strain` alerts
emitted equals the number of frames with `eye_strain_level > 20`,
independently of how close their timestamps are. -/
theorem C2_ungated_eye_strain (frames : List TrackingData) :
    ((RealWebSocketService.alertStream frames).filter
      (fun a => a.type == "eye_strain")).length
      = frames.countP (fun d => decide (20 < d.eye_strain_level)) := by
  induction frames with
  | nil => rfl
  | cons d fs ih =>
    have hstep : RealWebSocketService.alertStream (d :: fs)
        = RealWebSocketService.deriveAlerts d ++ RealWebSocketService.alertStream fs := by
      simp [RealWebSocketService.alertStream]
    rw [hstep, List.filter_append, List.length_append, strain_filter_deriveAlerts, ih,
      List.countP_cons]
    by_cases h3 : 20 < d.eye_strain_level
    · simp [h3]
      omega
    · simp [h3]

/-- Claim C2 counterexample: two frames of the same session, 1000 ms
apart (inside the 2000 ms cooldown window), both with
`eye_strain_level = 25 > 20`, produce two `eye_strain` alerts, not
exactly one. -/
theorem C2_counterexample :
    (strainData 0).eye_strain_level > 20 ∧
    (strainData 1000).eye_strain_level > 20 ∧
    (1000 : ℚ) - 0 < 2000 ∧
    ((RealWebSocketService.alertStream [strainData 0, strainData 1000]).filter
      (fun a => a.type == "eye_strain")).length = 2 := by
  refine ⟨by norm_num [strainData], by norm_num [strainData], by norm_num, ?_⟩
  norm_num [RealWebSocketService.alertStream, RealWebSocketService.deriveAlerts, strainData]

/-- Claim C3 (amended): every frame of the synthetic generator satisfies
the range invariants — attention in `[0, 1]`, eye strain in `[0, 100]`,
posture in `[0, 100]` by clamping, gaze in `[-1, 1]` given the
`Math.random` contract — while the live transform clamps nothing: each
bounded field of the published frame equals the raw wire value, so the
live output satisfies the invariants only when the input already does. -/
theorem C3_ranges_clamped_mock_passthrough_live (ts : ℚ)
    (env : MockWebSocketService.MockEnv) (d : TrackingData)
    (hx0 : 0 ≤ env.randGazeX) (hx1 : env.randGazeX ≤ 1)
    (hy0 : 0 ≤ env.randGazeY) (hy1 : env.randGazeY ≤ 1) :
    (0 ≤ (MockWebSocketService.mockFrame ts env).attention_score ∧
      (MockWebSocketService.mockFrame ts env).attention_score ≤ 1) ∧
    (0 ≤ (MockWebSocketService.mockFrame ts env).eye_strain_level ∧
      (MockWebSocketService.mockFrame ts env).eye_strain_level ≤ 100) ∧
    (0 ≤ (MockWebSocketService.mockFrame ts env).posture_score ∧
      (MockWebSocketService.mockFrame ts env).posture_score ≤ 100) ∧
    (-1 ≤ (MockWebSocketService.mockFrame ts env).gaze_x ∧
      (MockWebSocketService.mockFrame ts env).gaze_x ≤ 1) ∧
    (-1 ≤ (MockWebSocketService.mockFrame ts env).gaze_y ∧
      (MockWebSocketService.mockFrame ts env).gaze_y ≤ 1) ∧
    (RealWebSocketService.transformTrackingData d).attention_score = d.attention_score ∧
    (RealWebSocketService.transformTrackingData d).eye_strain_level = d.eye_strain_level ∧
    (RealWebSocketService.transformTrackingData d).posture_score = d.posture_score ∧
    (RealWebSocketService.transformTrackingData d).gaze
      = { x := d.gaze_direction_x, y := d.gaze_direction_y } := by
  refine ⟨⟨?_, ?_⟩, ⟨?_, ?_⟩, ⟨?_, ?_⟩, ⟨?_, ?_⟩, ⟨?_, ?_⟩, rfl, rfl, rfl, rfl⟩
  · exact le_max_left 0 _
  · exact max_le (by norm_num) (min_le_left 1 _)
  · exact le_max_left 0 _
  · exact max_le (by norm_num) ((min_le_left 50 _).trans (by norm_num))
  · exact le_trans (by norm_num) (le_max_left 60 _)
  · exact max_le (by norm_num) (min_le_left 100 _)
  · show (-1 : ℚ) ≤ 0.5 + (env.randGazeX - 0.5) * 0.3
    nlinarith
  · show (0.5 : ℚ) + (env.randGazeX - 0.5) * 0.3 ≤ 1
    nlinarith
  · show (-1 : ℚ) ≤ 0.5 + (env.randGazeY - 0.5) * 0.3
    nlinarith
  · show (0.5 : ℚ) + (env.randGazeY - 0.5) * 0.3 ≤ 1
    nlinarith

/-- Claim C3 counterexample: a wire frame with `attention_score = 2`,
`eye_strain_level = 150` and `gaze_direction_x = 3` is published by the
live transform with those values unchanged, violating the canonical range
invariants on the telemetry topic. -/
theorem C3_counterexample :
    (RealWebSocketService.transformTrackingData outOfRangeData).attention_score = 2 ∧
    ¬((RealWebSocketService.transformTrackingData outOfRangeData).attention_score ≤ 1) ∧
    ¬((RealWebSocketService.transformTrackingData outOfRangeData).eye_strain_level ≤ 100) ∧
    ¬((RealWebSocketService.transformTrackingData outOfRangeData).gaze.x ≤ 1) := by
  norm_num [RealWebSocketService.transformTrackingData, outOfRangeData]

/-- Claim C3 witness: the range theorem applied at a concrete tick whose
sines and random draws are all `1 / 2`. -/
theorem C3_witness :
    (0 : ℚ) ≤ halfEnv.randGazeX ∧
    (0 ≤ (MockWebSocketService.mockFrame 0 halfEnv).attention_score ∧
      (MockWebSocketService.mockFrame 0 halfEnv).attention_score ≤ 1) :=
  ⟨half_unit.1,
   ((C3_ranges_clamped_mock_passthrough_live 0 halfEnv (strainData 0)
      half_unit.1 half_unit.2 half_unit.1 half_unit.2)).1⟩

/-- Claim C4 (amended): on the live path an alert is derived per frame by
fixed thresholds — `low_attention` (warning) exactly when
`attention_score < 60` on the raw scale, `eye_strain` (warning) exactly
when `eye_strain_level > 20`, `distraction` (info) exactly when
`distraction_type` differs from `none` — and no `posture` alert is ever
emitted on the live path; the synthetic generator gates its alerts behind
random draws and emits its `eye_strain` alerts with severity `error`,
never a `distraction` alert, and `posture` alerts only below the
threshold. -/
theorem C4_fixed_threshold_alerts (d : TrackingData) (ts : ℚ)
    (env : MockWebSocketService.MockEnv) :
    (((∃ a ∈ RealWebSocketService.deriveAlerts d, a.type = "low_attention")
      ↔ d.attention_score < 60) ∧
    ((∃ a ∈ RealWebSocketService.deriveAlerts d, a.type = "eye_strain")
      ↔ d.eye_strain_level > 20) ∧
    ((∃ a ∈ RealWebSocketService.deriveAlerts d, a.type = "distraction")
      ↔ d.distraction_type ≠ "none") ∧
    (∀ a ∈ RealWebSocketService.deriveAlerts d, a.type ≠ "posture") ∧
    (∀ a ∈ RealWebSocketService.deriveAlerts d,
      a.type = "low_attention" → a.severity = "warning") ∧
    (∀ a ∈ RealWebSocketService.deriveAlerts d,
      a.type = "eye_strain" → a.severity = "warning") ∧
    (∀ a ∈ RealWebSocketService.deriveAlerts d,
      a.type = "distraction" → a.severity = "info")) ∧
    ((∀ a ∈ MockWebSocketService.mockAlerts ts env,
      a.type = "eye_strain" → a.severity = "error") ∧
    (∀ a ∈ MockWebSocketService.mockAlerts ts env, a.type ≠ "distraction") ∧
    (∀ a ∈ MockWebSocketService.mockAlerts ts env,
      a.type = "posture" → (MockWebSocketService.mockFrame ts env).posture_score < 70)) := by
  refine ⟨?_, mockAlerts_facts ts env⟩
  by_cases h1 : d.attention_score < 60 <;>
    by_cases h2 : d.distraction_type = "none" <;>
    by_cases h3 : d.eye_strain_level > 20 <;>
    simp [RealWebSocketService.deriveAlerts, h1, h2, h3]

/-- Claim C4 counterexample: a frame with `posture_score = 50 < 70` whose
other fields meet no threshold derives no alert at all on the live path,
although the claim requires a `posture` warning alert. -/
theorem C4_counterexample :
    postureOnlyData.posture_score < 70 ∧
    RealWebSocketService.deriveAlerts postureOnlyData = [] := by
  refine ⟨by norm_num [postureOnlyData], ?_⟩
  norm_num [RealWebSocketService.deriveAlerts, postureOnlyData]

/-- Claim C4 witness: the threshold theorem applied to the concrete frame
whose eye strain exceeds 20, yielding an `eye_strain` alert. -/
theorem C4_witness :
    (strainData 0).eye_strain_level > 20 ∧
    (∃ a ∈ RealWebSocketService.deriveAlerts (strainData 0), a.type = "eye_strain") :=
  ⟨strainData_gt,
   (C4_fixed_threshold_alerts (strainData 0) 0 halfEnv).1.2.1.mpr strainData_gt⟩

/-- Claim C5 (amended): `RealWebSocketService.emit` and
`MockWebSocketService.emit` invoke every callback subscribed to the topic
in subscription order, log each thrown exception, keep invoking the
remaining callbacks, and propagate nothing to the publisher;
`WebSocketService.emit` has no catch, so it completes the full invocation
list only when no subscribed callback throws. -/
theorem C5_emit_isolation (beh : Nat → Except String Unit)
    (s : RealWebSocketService.State) (hm : ListenerMap)
    (w : WebSocketService.State) (e : String) :
    (RealWebSocketService.emit s e beh).1 = s.eventListeners.getD e ∧
    (RealWebSocketService.emit s e beh).2
      = (s.eventListeners.getD e).filterMap (fun c =>
          match beh c with
          | .ok _ => none
          | .error err => some err) ∧
    (MockWebSocketService.emit hm e beh).1 = hm.getD e ∧
    ((∀ c ∈ w.listeners.getD e, beh c = Except.ok ()) →
      WebSocketService.emit w e beh = (w.listeners.getD e, none)) :=
  ⟨runCallbacksCaught_fst beh _, runCallbacksCaught_snd beh _,
   runCallbacksCaught_fst beh _,
   fun h => runCallbacksUncaught_ok beh _ h⟩

/-- Claim C5 counterexample: with two subscribers on one topic of
`WebSocketService` where the first callback throws, the second callback is
never invoked and the exception propagates back to the publisher. -/
theorem C5_counterexample :
    wsTwoSubscribers.listeners.getD "telemetry" = [0, 1] ∧
    WebSocketService.emit wsTwoSubscribers "telemetry" throwingBeh = ([0], some "boom") ∧
    (1 : Nat) ∉ (WebSocketService.emit wsTwoSubscribers "telemetry" throwingBeh).1 := by
  decide

/-- Claim C5 witness: the emit theorem applied to a concrete listener map
with callbacks that do not throw. -/
theorem C5_witness :
    (∀ c ∈ wsTwoSubscribers.listeners.getD "telemetry", okBeh c = Except.ok ()) ∧
    WebSocketService.emit wsTwoSubscribers "telemetry" okBeh
      = (wsTwoSubscribers.listeners.getD "telemetry", none) :=
  ⟨fun _ _ => rfl,
   (C5_emit_isolation okBeh singleState [] wsTwoSubscribers "telemetry").2.2.2
     (fun _ _ => rfl)⟩

/-- Claim C6: calling `startTracking` while the connection is down reports
the not-connected error to the caller, sends no `start_tracking` command
to the transport, schedules no retry (the embedded method body performs
nothing else), and leaves the service state unchanged; the
`WebSocketService` variant likewise sends nothing and only logs a console
warning. -/
theorem C6_start_tracking_not_connected (s : RealWebSocketService.State)
    (sid tok : String) (h : s.isConnected = false) :
    RealWebSocketService.startTracking s sid tok
      = (s, [], [ConnEvent.connection_error "Not connected to server"]) ∧
    WebSocketService.startTracking false sid tok
      = ([], ["WebSocket not connected. Cannot start tracking."]) := by
  simp [RealWebSocketService.startTracking, WebSocketService.startTracking, h]

/-- Claim C6 witness: the theorem applied to a concrete disconnected
state. -/
theorem C6_witness :
    notConnectedState.isConnected = false ∧
    RealWebSocketService.startTracking notConnectedState "s1" "tok"
      = (notConnectedState, [], [ConnEvent.connection_error "Not connected to server"]) :=
  ⟨rfl, (C6_start_tracking_not_connected notConnectedState "s1" "tok" rfl).1⟩

/-- Claim C7 (amended): calling `resumeTracking` on a stopped session does
not crash and leaves the state unchanged — in particular the tick timer is
not restarted — but no `InvalidTransition` signal is surfaced: the
synthetic generator unconditionally emits `session_resumed`, and
`RealWebSocketService` guards only on the connection, returning silently
with no event and no command when disconnected. -/
theorem C7_resume_invalid_state (s : MockWebSocketService.State) (sid : String)
    (h : s.sessionActive = false)
    (r : RealWebSocketService.State) (tok : String)
    (hr : r.isConnected = false) :
    MockWebSocketService.resumeTracking s sid = (s, [SessionEvent.session_resumed sid]) ∧
    (∀ e ∈ (MockWebSocketService.resumeTracking s sid).2,
      e ≠ SessionEvent.invalid_transition sid) ∧
    RealWebSocketService.resumeTracking r sid tok = (r, []) := by
  obtain ⟨ca, sa, ta⟩ := s
  subst h
  refine ⟨?_, ?_, ?_⟩
  · simp [MockWebSocketService.resumeTracking]
  · simp [MockWebSocketService.resumeTracking]
  · simp [RealWebSocketService.resumeTracking, hr]

/-- Claim C7 counterexample: resuming the stopped mock session emits the
ordinary `session_resumed` event and no `InvalidTransition` signal. -/
theorem C7_counterexample :
    MockWebSocketService.resumeTracking stoppedMock "s1"
      = (stoppedMock, [SessionEvent.session_resumed "s1"]) ∧
    SessionEvent.invalid_transition "s1"
      ∉ (MockWebSocketService.resumeTracking stoppedMock "s1").2 := by
  decide

/-- Claim C7 witness: the theorem applied to the concrete stopped mock
state and a concrete disconnected transport state. -/
theorem C7_witness :
    stoppedMock.sessionActive = false ∧
    notConnectedState.isConnected = false ∧
    MockWebSocketService.resumeTracking stoppedMock "s1"
      = (stoppedMock, [SessionEvent.session_resumed "s1"]) ∧
    RealWebSocketService.resumeTracking notConnectedState "s1" "tok"
      = (notConnectedState, []) :=
  ⟨rfl, rfl, (C7_resume_invalid_state stoppedMock "s1" rfl notConnectedState "tok" rfl).1,
   (C7_resume_invalid_state stoppedMock "s1" rfl notConnectedState "tok" rfl).2.2⟩

/-- Claim C8 (amended): a registration survives later registrations on the
same topic in order (`on` appends after existing subscribers), and
`WebSocketService.disconnect` leaves all subscriptions registered, but
`RealWebSocketService.disconnect` clears every subscription, so on that
service a subscription does not persist until an explicit unsubscribe. -/
theorem C8_subscription_lifetime (s : RealWebSocketService.State)
    (w : WebSocketService.State) (m : ListenerMap) (e : String) (cb : Nat) :
    (RealWebSocketService.disconnect s).eventListeners = [] ∧
    (WebSocketService.disconnect w).listeners = w.listeners ∧
    (ListenerMap.onRegister m e cb).getD e = m.getD e ++ [cb] :=
  ⟨rfl, rfl, getD_onRegister m e cb⟩

/-- Claim C8 counterexample: a callback subscribed to the telemetry topic
is removed by `RealWebSocketService.disconnect` — an operation that is not
an unsubscribe — and a subsequent publish invokes nothing. -/
theorem C8_counterexample :
    (7 : Nat) ∈ subscribedState.eventListeners.getD "eye_tracking_data" ∧
    (RealWebSocketService.disconnect subscribedState).eventListeners = [] ∧
    (RealWebSocketService.emit (RealWebSocketService.disconnect subscribedState)
      "eye_tracking_data" okBeh).1 = [] := by
  decide

/-- Claim C9 (amended): `off` removes exactly the first matching
registration; when the callback was registered at most once on the topic
it is invoked for zero events published afterwards, while the
registration count of every other callback is unchanged and the invoked
list of a subsequent publish is the original subscriber list with that
one occurrence erased, preserving order. -/
theorem C9_off_unsubscribes (s : RealWebSocketService.State) (e : String) (cb : Nat)
    (h : (s.eventListeners.getD e).count cb ≤ 1) (beh : Nat → Except String Unit) :
    (RealWebSocketService.emit (RealWebSocketService.off s e cb) e beh).1
      = (s.eventListeners.getD e).erase cb ∧
    cb ∉ (RealWebSocketService.emit (RealWebSocketService.off s e cb) e beh).1 ∧
    (∀ cb', cb' ≠ cb →
      ((RealWebSocketService.off s e cb).eventListeners.getD e).count cb'
        = (s.eventListeners.getD e).count cb') := by
  have hoff : (RealWebSocketService.off s e cb).eventListeners.getD e
      = (s.eventListeners.getD e).erase cb := by
    rw [RealWebSocketService.off]
    simpa [removeFirst_eq_erase] using getD_offRemove s.eventListeners e cb
  have hinv : (RealWebSocketService.emit (RealWebSocketService.off s e cb) e beh).1
      = (s.eventListeners.getD e).erase cb := by
    rw [RealWebSocketService.emit, runCallbacksCaught_fst, hoff]
  refine ⟨hinv, ?_, ?_⟩
  · rw [hinv]
    have hz : ((s.eventListeners.getD e).erase cb).count cb = 0 := by
      rw [List.count_erase_self]
      omega
    exact List.count_eq_zero.mp hz
  · intro cb' hne
    rw [hoff, List.count_erase_of_ne hne]

/-- Claim C9 counterexample: a callback subscribed twice on one topic
still receives events after a single `off` call, because `off` splices
out only the first matching registration. -/
theorem C9_counterexample :
    dupState.eventListeners.getD "telemetry" = [7, 7] ∧
    (7 : Nat) ∈ (RealWebSocketService.emit
      (RealWebSocketService.off dupState "telemetry" 7) "telemetry" okBeh).1 := by
  decide

/-- Claim C9 witness: the unsubscribe theorem applied to a concrete state
with the callback registered once. -/
theorem C9_witness :
    (singleState.eventListeners.getD "telemetry").count 7 ≤ 1 ∧
    (7 : Nat) ∉ (RealWebSocketService.emit
      (RealWebSocketService.off singleState "telemetry" 7) "telemetry" okBeh).1 :=
  ⟨by decide, (C9_off_unsubscribes singleState "telemetry" 7 (by decide) okBeh).2.1⟩

/-- Claim C10: after `stopTracking`, a `resumeTracking` call on the
synthetic generator emits the `session_resumed` lifecycle event but does
not restart the tick timer, so no further telemetry frame is produced;
the timer is restarted on resume exactly when the session is still
active. -/
theorem C10_resume_after_stop (s : MockWebSocketService.State) (sid sid' : String)
    (ts : ℚ) (env : MockWebSocketService.MockEnv) :
    (MockWebSocketService.resumeTracking
        ((MockWebSocketService.stopTracking s sid).1) sid').2
      = [SessionEvent.session_resumed sid'] ∧
    ((MockWebSocketService.resumeTracking
        ((MockWebSocketService.stopTracking s sid).1) sid').1).timerActive = false ∧
    MockWebSocketService.tick
        ((MockWebSocketService.resumeTracking
          ((MockWebSocketService.stopTracking s sid).1) sid').1) ts env = none ∧
    (∀ t : MockWebSocketService.State, t.sessionActive = true →
      ((MockWebSocketService.resumeTracking t sid').1).timerActive = true) := by
  refine ⟨rfl, rfl, rfl, ?_⟩
  intro t ht
  simp [MockWebSocketService.resumeTracking, ht]

/-- Claim C10 witness: the theorem applied to a concrete tracking state,
with the stop-then-resume tick producing no frame and the resume of a
still-active session restarting the timer. -/
theorem C10_witness :
    activeMock.sessionActive = true ∧
    ((MockWebSocketService.resumeTracking activeMock "s1").1).timerActive = true ∧
    MockWebSocketService.tick
      ((MockWebSocketService.resumeTracking
        ((MockWebSocketService.stopTracking activeMock "s1").1) "s1").1) 0 halfEnv = none :=
  ⟨rfl, (C10_resume_after_stop activeMock "s1" "s1" 0 halfEnv).2.2.2 activeMock rfl,
   (C10_resume_after_stop activeMock "s1" "s1" 0 halfEnv).2.2.1⟩

end StudyEyes
